import Mathlib

/-!
Verification of the Share-choreo Telegram media-index bot (`src/main.py`).

The development shallowly embeds the pure core of the program:

* the JSON-file store (`load_db` / `save_db` / `add_or_update_entry`),
* the paginated inline-menu builder (`send_menu_page`),
* the callback-query handler (`callback_handler`),
* the channel-post listener (`channel_post_listener`).

Machine-level details of the Python runtime are modelled explicitly:
list slicing with the semantics of `entries[start:end]` (including negative
indices), `str.startswith`, `str.split(":", 1)[1]`, `str.strip`, `int(...)`
with its `try/except` fallback, and the truthiness tests the handlers use.
Outbound Telegram API calls are reified as a list of `BotAction`s; the
state of the backing JSON file is a `StoreFile`.
-/

namespace ShareChoreo

/-- MediaRecord is one entry of the JSON store, mirroring the dict built in
`add_or_update_entry`: `{"id": str(msg_id), "title": title, "file_id": file_id,
"msg_id": msg_id}`. -/
structure MediaRecord where
  id : String
  title : String
  file_id : String
  msg_id : Nat
  deriving Repr, DecidableEq

/-- StoreValue is the result of a successful `json.load` of the backing file:
either a JSON array of records or some other JSON value. -/
inductive StoreValue where
  | list (entries : List MediaRecord)
  | other
  deriving Repr, DecidableEq

/-- StoreFile is the observable state of the backing file `video_db.json`:
missing, present but not parsable as JSON (so `json.load` raises), or
present and parsed to a `StoreValue`. -/
inductive StoreFile where
  | absent
  | unparsable
  | parsed (v : StoreValue)
  deriving Repr, DecidableEq

/-- CHANNEL_ID from the configuration block of `main.py`. -/
def CHANNEL_ID : Int := -1003370713141

/-- PAGE_SIZE from the configuration block of `main.py`. -/
def PAGE_SIZE : Nat := 6

/-- load_db from `main.py`: a missing file, a `json.load` failure, and a
parse to a non-list all yield `[]`; a parsed list is returned as is. -/
def load_db : StoreFile → List MediaRecord
  | .absent => []
  | .unparsable => []
  | .parsed (.list entries) => entries
  | .parsed .other => []

/-- save_db from `main.py`: overwrites the backing file with the JSON dump
of the given entries. -/
def save_db (entries : List MediaRecord) : StoreFile :=
  .parsed (.list entries)

/-- add_or_update_entry's loop over the in-memory list: linear scan for the
first record whose `msg_id` matches; update its `title` and `file_id` in
place, or append a fresh record `{"id": str(msg_id), ...}` at the end. -/
def add_or_update_entry (title file_id : String) (msg_id : Nat) :
    List MediaRecord → List MediaRecord
  | [] => [⟨Nat.repr msg_id, title, file_id, msg_id⟩]
  | e :: rest =>
    if e.msg_id = msg_id then
      { e with title := title, file_id := file_id } :: rest
    else
      e :: add_or_update_entry title file_id msg_id rest

/-- add_or_update_entry as `main.py` runs it end to end: `load_db`, scan and
update or append, `save_db`. -/
def add_or_update_entry_file (title file_id : String) (msg_id : Nat)
    (db : StoreFile) : StoreFile :=
  save_db (add_or_update_entry title file_id msg_id (load_db db))

/-- InlineKeyboardButton as `send_menu_page` constructs them: a label and a
callback payload. -/
structure InlineKeyboardButton where
  text : String
  callback_data : String
  deriving Repr, DecidableEq

/-- pySlice models the Python list slice `xs[start:stop]` with step 1:
negative indices count from the end and both bounds are clamped to
`[0, len(xs)]`. -/
def pySlice (xs : List MediaRecord) (start stop : Int) : List MediaRecord :=
  let n : Int := xs.length
  let s : Int := if start < 0 then max (n + start) 0 else min start n
  let t : Int := if stop < 0 then max (n + stop) 0 else min stop n
  (xs.drop s.toNat).take (t - s).toNat

/-- nav_row from `send_menu_page`: an optional Prev button (only when
`page > 0`), the non-actionable page indicator, and an optional Next button
(only when `end_idx < total`). -/
def nav_row (pageSize total : Nat) (page end_idx : Int) :
    List InlineKeyboardButton :=
  (if page > 0 then [⟨"⬅ Prev", "page:" ++ toString (page - 1)⟩] else [])
    ++ [⟨"Page " ++ toString (page + 1) ++ "/" ++ Nat.repr ((total - 1) / pageSize + 1),
          "noop"⟩]
    ++ (if end_idx < (total : Int) then [⟨"Next ➡", "page:" ++ toString (page + 1)⟩]
        else [])

/-- menu_keyboard is the inline keyboard `send_menu_page` builds when the
store is non-empty: one row per record of the page slice, then the
navigation row, then the Refresh row.  The page size is a parameter;
`main.py` always passes the constant `PAGE_SIZE`. -/
def menu_keyboard (pageSize : Nat) (entries : List MediaRecord) (page : Int) :
    List (List InlineKeyboardButton) :=
  let start_idx : Int := page * pageSize
  let end_idx : Int := start_idx + pageSize
  let slice_entries := pySlice entries start_idx end_idx
  (slice_entries.map (fun e => [⟨e.title, "play:" ++ e.id⟩]))
    ++ [nav_row pageSize entries.length page end_idx]
    ++ [[⟨"Refresh DB", "refresh_db"⟩]]

/-- BotAction reifies the outbound Telegram API calls the handlers make. -/
inductive BotAction where
  | answerQuery
  | deleteMessage
  | sendMessage (chat_id : Int) (text : String)
      (reply_markup : Option (List (List InlineKeyboardButton)))
  | sendDocument (chat_id : Int) (document : String) (filename : String)
      (caption : String)
  | replyText (text : String)
  deriving Repr, DecidableEq

/-- send_menu_page from `main.py`: loads the store; an empty store sends a
plain message, otherwise the keyboard for the requested page is sent. -/
def send_menu_page (chat_id : Int) (page : Int) (db : StoreFile) :
    List BotAction :=
  let entries := load_db db
  let total := entries.length
  if total = 0 then
    [.sendMessage chat_id "No videos available yet." none]
  else
    [.sendMessage chat_id "Select a video:"
      (some (menu_keyboard PAGE_SIZE entries page))]

/-- pyStartsWith models Python `s.startswith(pre)`. -/
def pyStartsWith (s pre : String) : Bool :=
  pre.data.isPrefixOf s.data

/-- splitColonTail is the character-level core of `s.split(":", 1)[1]`:
everything after the first colon (and `[]` when there is no colon, a case
the handlers never reach because they test `startswith` first). -/
def splitColonTail : List Char → List Char
  | [] => []
  | c :: cs => if c = ':' then cs else splitColonTail cs

/-- splitOnceTail models `s.split(":", 1)[1]`. -/
def splitOnceTail (s : String) : String :=
  ⟨splitColonTail s.data⟩

/-- isPySpace holds on the ASCII whitespace characters Python's `str.strip`
and `int(...)` discard. -/
def isPySpace (c : Char) : Bool :=
  c = ' ' || c = '\t' || c = '\n' || c = '\r' || c = '\x0b' || c = '\x0c'

/-- pyStrip models Python `s.strip()` (restricted to ASCII whitespace). -/
def pyStrip (s : String) : String :=
  ⟨((s.data.dropWhile isPySpace).reverse.dropWhile isPySpace).reverse⟩

/-- parseDigitsAux folds a run of decimal digits into a number, failing on
the first non-digit. -/
def parseDigitsAux : List Char → Nat → Option Nat
  | [], acc => some acc
  | c :: cs, acc =>
    if c.isDigit then parseDigitsAux cs (10 * acc + (c.toNat - 48)) else none

/-- parseDigits parses a non-empty all-digit string. -/
def parseDigits : List Char → Option Nat
  | [] => none
  | cs => parseDigitsAux cs 0

/-- pyInt models `int(s)` on decimal literals: surrounding whitespace is
stripped, one optional sign is allowed, then a non-empty digit run;
anything else raises, modelled as `none`.  (Underscore separators and
non-ASCII digits, which CPython also accepts, are out of scope.) -/
def pyInt (s : String) : Option Int :=
  match (pyStrip s).data with
  | '-' :: cs => (parseDigits cs).map (fun n => -(n : Int))
  | '+' :: cs => (parseDigits cs).map (fun n => (n : Int))
  | cs => (parseDigits cs).map (fun n => (n : Int))

/-- callback_handler from `main.py`.  `data` is `query.data` (possibly
absent), `deliveryOk` tells whether the `bot.send_document` call in the
`play:` branch succeeds (its failure is caught and answered with a generic
error).  The result is the store state after the handler plus the reified
outbound calls, in order. -/
def callback_handler (data : Option String) (chat_id : Int)
    (deliveryOk : Bool) (db : StoreFile) : StoreFile × List BotAction :=
  match data with
  | none => (db, [.answerQuery])
  | some d =>
    if d = "" ∨ d = "noop" then (db, [.answerQuery])
    else if d = "refresh_db" then
      (db, [.answerQuery, .deleteMessage] ++ send_menu_page chat_id 0 db)
    else if pyStartsWith d "page:" then
      let page : Int := (pyInt (splitOnceTail d)).getD 0
      (db, [.answerQuery, .deleteMessage] ++ send_menu_page chat_id page db)
    else if pyStartsWith d "play:" then
      let vid_id := splitOnceTail d
      match (load_db db).find? (fun e => e.id == vid_id) with
      | none => (db, [.answerQuery, .replyText "Video not found. Try Refresh."])
      | some entry =>
        if deliveryOk then
          (db, [.answerQuery,
                .sendDocument chat_id entry.file_id (entry.title ++ ".mp4")
                  entry.title])
        else
          (db, [.answerQuery,
                .replyText "Failed to send video. It might be protected or file_id expired. Re-upload to channel if needed."])
    else (db, [.answerQuery])

/-- ChannelPost is the part of `update.channel_post` the listener reads:
the chat id, the message id, an optional caption, and the optional media
attachments (a photo post carries a list of resolution variants,
lowest-resolution first). -/
structure ChannelPost where
  chat_id : Int
  message_id : Nat
  caption : Option String
  document : Option String
  video : Option String
  photo : List String
  deriving Repr, DecidableEq

/-- channel_post_listener from `main.py`: posts from other chats (or a
missing `channel_post`) are ignored; otherwise the post is classified by
media kind (document, then video, then photo, where an empty variant list
is falsy) and upserted with the stripped caption or a synthesized
placeholder title.  Only the store effect is modelled; the handler sends
nothing. -/
def channel_post_listener (msg : Option ChannelPost) (db : StoreFile) :
    StoreFile :=
  match msg with
  | none => db
  | some m =>
    if m.chat_id ≠ CHANNEL_ID then db
    else
      let caption := pyStrip (m.caption.getD "")
      let msg_id := m.message_id
      match m.document with
      | some fid =>
        add_or_update_entry_file
          (if caption = "" then "Document " ++ Nat.repr msg_id else caption)
          fid msg_id db
      | none =>
        match m.video with
        | some fid =>
          add_or_update_entry_file
            (if caption = "" then "Video " ++ Nat.repr msg_id else caption)
            fid msg_id db
        | none =>
          match m.photo.getLast? with
          | some fid =>
            add_or_update_entry_file
              (if caption = "" then "Photo " ++ Nat.repr msg_id else caption)
              fid msg_id db
          | none => db

/-- rowHasButton tells whether a keyboard row contains a button with the
given label. -/
def rowHasButton (row : List InlineKeyboardButton) (t : String) : Bool :=
  row.any (fun b => b.text == t)

/-- msgIdCount counts the records of the store holding a given
`sourceMessageId`. -/
def msgIdCount (m : Nat) (entries : List MediaRecord) : Nat :=
  (entries.filter (fun e => e.msg_id == m)).length

/-- GoodStore is the store invariant `main.py` maintains: every record's
`id` is the decimal string of its `msg_id`, and no two records share a
`msg_id`. -/
def GoodStore (entries : List MediaRecord) : Prop :=
  (∀ e ∈ entries, e.id = Nat.repr e.msg_id) ∧ ∀ m, msgIdCount m entries ≤ 1

/-- ex13 is the spec's worked example: a store of 13 records. -/
def ex13 : List MediaRecord :=
  (List.range 13).map (fun i => ⟨Nat.repr (i + 1), "t", "f", i + 1⟩)

/-- cexPost is a channel post whose caption carries surrounding whitespace. -/
def cexPost : ChannelPost :=
  ⟨CHANNEL_ID, 5, some "  hello  ", some "doc-file", none, []⟩

/-- photoPost is a caption-less photo post with two resolution variants. -/
def photoPost : ChannelPost :=
  ⟨CHANNEL_ID, 7, none, none, none, ["p1", "p2"]⟩

/-! ### Decimal representation: `Nat.repr` is injective

The `play:<id>` lookup compares `str(msg_id)` strings, so relating it to
`msg_id` needs injectivity of the decimal representation.  We connect
`Nat.toDigitsCore` to `Nat.digits`. -/

/-- digitList is the big-endian decimal digit-character list of `n`. -/
def digitList (n : Nat) : List Char :=
  ((Nat.digits 10 n).map Nat.digitChar).reverse

lemma toDigitsCore_eq_digitList :
    ∀ (fuel n : Nat) (ds : List Char), n ≠ 0 → n < fuel →
      Nat.toDigitsCore 10 fuel n ds = digitList n ++ ds := by
  intro fuel
  induction fuel with
  | zero => intro n ds _ hlt; omega
  | succ fuel ih =>
    intro n ds hn hlt
    rw [Nat.toDigitsCore]
    by_cases h10 : n / 10 = 0
    · have hlt10 : n < 10 := by omega
      have hdig : Nat.digits 10 n = [n] := Nat.digits_of_lt 10 n hn hlt10
      simp [h10, digitList, hdig, Nat.mod_eq_of_lt hlt10]
    · have h1 : n / 10 < fuel := by omega
      simp only [h10, if_false]
      rw [ih (n / 10) (Nat.digitChar (n % 10) :: ds) h10 h1]
      have hsplit : digitList n = digitList (n / 10) ++ [Nat.digitChar (n % 10)] := by
        unfold digitList
        rw [Nat.digits_def' (by norm_num : (1 : ℕ) < 10) (Nat.pos_of_ne_zero hn)]
        simp
      rw [hsplit]
      simp

lemma toDigits_ten (n : Nat) :
    Nat.toDigits 10 n = if n = 0 then ['0'] else digitList n := by
  by_cases h : n = 0
  · subst h; rfl
  · rw [Nat.toDigits, toDigitsCore_eq_digitList (n + 1) n [] h (Nat.lt_succ_self n)]
    simp [h]

lemma digitChar_inj_lt {a b : Nat} (ha : a < 10) (hb : b < 10)
    (h : Nat.digitChar a = Nat.digitChar b) : a = b := by
  have key : ∀ x : Fin 10, ∀ y : Fin 10,
      Nat.digitChar x.val = Nat.digitChar y.val → x.val = y.val := by decide
  exact key ⟨a, ha⟩ ⟨b, hb⟩ h

lemma map_digitChar_inj :
    ∀ xs ys : List Nat, (∀ x ∈ xs, x < 10) → (∀ y ∈ ys, y < 10) →
      xs.map Nat.digitChar = ys.map Nat.digitChar → xs = ys := by
  intro xs
  induction xs with
  | nil =>
    intro ys _ _ h
    cases ys with
    | nil => rfl
    | cons y ys => simp at h
  | cons x xs ih =>
    intro ys hx hy h
    cases ys with
    | nil => simp at h
    | cons y ys =>
      simp only [List.map_cons, List.cons.injEq] at h
      have hxy : x = y :=
        digitChar_inj_lt (hx x (by simp)) (hy y (by simp)) h.1
      have htail := ih ys (fun a ha => hx a (by simp [ha]))
        (fun a ha => hy a (by simp [ha])) h.2
      rw [hxy, htail]

lemma eq_zero_of_digitList_eq_single_zero {n : Nat} (h : digitList n = ['0']) :
    n = 0 := by
  have h1 : (Nat.digits 10 n).map Nat.digitChar = ['0'] := by
    have h0 := congrArg List.reverse h
    simpa [digitList] using h0
  have h2 : Nat.digits 10 n = [0] := by
    apply map_digitChar_inj _ [0]
    · intro x hx; exact Nat.digits_lt_base (by norm_num) hx
    · intro y hy; simp at hy; omega
    · simpa using h1
  have h3 := Nat.ofDigits_digits 10 n
  rw [h2] at h3
  simpa [Nat.ofDigits] using h3.symm

lemma Nat_repr_injective : Function.Injective Nat.repr := by
  intro m n h
  have hd : Nat.toDigits 10 m = Nat.toDigits 10 n := congrArg String.data h
  rw [toDigits_ten, toDigits_ten] at hd
  by_cases hm : m = 0 <;> by_cases hn : n = 0
  · omega
  · exfalso
    rw [if_pos hm, if_neg hn] at hd
    exact hn (eq_zero_of_digitList_eq_single_zero hd.symm)
  · exfalso
    rw [if_neg hm, if_pos hn] at hd
    exact hm (eq_zero_of_digitList_eq_single_zero hd)
  · rw [if_neg hm, if_neg hn] at hd
    have h1 : (Nat.digits 10 m).map Nat.digitChar = (Nat.digits 10 n).map Nat.digitChar := by
      have h0 := congrArg List.reverse hd
      simpa [digitList] using h0
    have h2 : Nat.digits 10 m = Nat.digits 10 n :=
      map_digitChar_inj _ _
        (fun x hx => Nat.digits_lt_base (by norm_num) hx)
        (fun y hy => Nat.digits_lt_base (by norm_num) hy) h1
    have h3 := Nat.ofDigits_digits 10 m
    rw [h2, Nat.ofDigits_digits] at h3
    exact h3.symm

/-! ### Store lemmas: counting, upsert structure, lookup -/

lemma msgIdCount_nil (m : Nat) : msgIdCount m [] = 0 := rfl

lemma msgIdCount_cons (m : Nat) (e : MediaRecord) (l : List MediaRecord) :
    msgIdCount m (e :: l)
      = (if e.msg_id = m then 1 else 0) + msgIdCount m l := by
  simp only [msgIdCount, List.filter_cons]
  by_cases h : e.msg_id = m
  · simp [h]; omega
  · simp [h]

lemma msgIdCount_upsert_ne (t f : String) (k m : Nat) (h : m ≠ k) :
    ∀ l, msgIdCount m (add_or_update_entry t f k l) = msgIdCount m l := by
  intro l
  induction l with
  | nil => simp [add_or_update_entry, msgIdCount_cons, msgIdCount_nil, Ne.symm h]
  | cons e rest ih =>
    by_cases he : e.msg_id = k
    · simp [add_or_update_entry, he, msgIdCount_cons]
    · simp [add_or_update_entry, he, msgIdCount_cons, ih]

lemma msgIdCount_upsert_self (t f : String) (k : Nat) :
    ∀ l, msgIdCount k (add_or_update_entry t f k l)
      = max (msgIdCount k l) 1 := by
  intro l
  induction l with
  | nil => simp [add_or_update_entry, msgIdCount_cons, msgIdCount_nil]
  | cons e rest ih =>
    by_cases he : e.msg_id = k
    · simp [add_or_update_entry, he, msgIdCount_cons]
    · simp [add_or_update_entry, he, msgIdCount_cons, ih]

lemma upsert_no_match (t f : String) (k : Nat) :
    ∀ l, (∀ e ∈ l, e.msg_id ≠ k) →
      add_or_update_entry t f k l = l ++ [⟨Nat.repr k, t, f, k⟩] := by
  intro l
  induction l with
  | nil => intro _; rfl
  | cons e rest ih =>
    intro h
    have he : e.msg_id ≠ k := h e (by simp)
    simp [add_or_update_entry, he, ih (fun x hx => h x (by simp [hx]))]

lemma upsert_first_match (t f : String) (k : Nat) :
    ∀ (pre : List MediaRecord) (e : MediaRecord) (post : List MediaRecord),
      e.msg_id = k → (∀ e' ∈ pre, e'.msg_id ≠ k) →
      add_or_update_entry t f k (pre ++ e :: post)
        = pre ++ { e with title := t, file_id := f } :: post := by
  intro pre
  induction pre with
  | nil =>
    intro e post he _
    simp [add_or_update_entry, he]
  | cons p pre ih =>
    intro e post he hpre
    have hp : p.msg_id ≠ k := hpre p (by simp)
    simp [add_or_update_entry, hp,
      ih e post he (fun x hx => hpre x (by simp [hx]))]

lemma upsert_idem_list (t f : String) (k : Nat) :
    ∀ l, add_or_update_entry t f k (add_or_update_entry t f k l)
      = add_or_update_entry t f k l := by
  intro l
  induction l with
  | nil => simp [add_or_update_entry]
  | cons e rest ih =>
    by_cases he : e.msg_id = k
    · simp [add_or_update_entry, he]
    · simp [add_or_update_entry, he, ih]

lemma upsert_ids (t f : String) (k : Nat) :
    ∀ l, (∀ e ∈ l, e.id = Nat.repr e.msg_id) →
      ∀ e ∈ add_or_update_entry t f k l, e.id = Nat.repr e.msg_id := by
  intro l
  induction l with
  | nil =>
    intro _ e he
    simp [add_or_update_entry] at he
    subst he; rfl
  | cons p rest ih =>
    intro hid e he
    by_cases hp : p.msg_id = k
    · simp [add_or_update_entry, hp] at he
      rcases he with rfl | hmem
      · show p.id = Nat.repr k
        rw [hid p (by simp), hp]
      · exact hid e (by simp [hmem])
    · simp [add_or_update_entry, hp] at he
      rcases he with rfl | hmem
      · exact hid e (by simp)
      · exact ih (fun x hx => hid x (by simp [hx])) e hmem

lemma find?_upsert (t f : String) (k : Nat) :
    ∀ l, (∀ e ∈ l, e.id = Nat.repr e.msg_id) →
      (add_or_update_entry t f k l).find? (fun e => e.id == Nat.repr k)
        = some ⟨Nat.repr k, t, f, k⟩ := by
  intro l
  induction l with
  | nil => intro _; simp [add_or_update_entry, List.find?]
  | cons e rest ih =>
    intro hid
    by_cases he : e.msg_id = k
    · have hide : e.id = Nat.repr k := by rw [hid e (by simp), he]
      simp [add_or_update_entry, he, List.find?, hide]
    · have hne : e.id ≠ Nat.repr k := by
        rw [hid e (by simp)]
        exact fun hcontra => he (Nat_repr_injective hcontra)
      simp [add_or_update_entry, he, List.find?, hne,
        ih (fun x hx => hid x (by simp [hx]))]

/-! ### String lemmas for the callback dispatch -/

lemma data_play (s : String) :
    ("play:" ++ s).data = 'p' :: 'l' :: 'a' :: 'y' :: ':' :: s.data := rfl

lemma data_page (s : String) :
    ("page:" ++ s).data = 'p' :: 'a' :: 'g' :: 'e' :: ':' :: s.data := rfl

lemma string_head_ne {s t : String} (h : s.data.head? ≠ t.data.head?) :
    s ≠ t :=
  fun e => h (congrArg (fun x => x.data.head?) e)

lemma play_ne_empty (s : String) : ("play:" ++ s) ≠ "" :=
  string_head_ne (by rw [data_play, List.head?_cons]; decide)

lemma play_ne_noop (s : String) : ("play:" ++ s) ≠ "noop" :=
  string_head_ne (by rw [data_play, List.head?_cons]; decide)

lemma play_ne_refresh (s : String) : ("play:" ++ s) ≠ "refresh_db" :=
  string_head_ne (by rw [data_play, List.head?_cons]; decide)

lemma page_ne_empty (s : String) : ("page:" ++ s) ≠ "" :=
  string_head_ne (by rw [data_page, List.head?_cons]; decide)

lemma page_ne_noop (s : String) : ("page:" ++ s) ≠ "noop" :=
  string_head_ne (by rw [data_page, List.head?_cons]; decide)

lemma page_ne_refresh (s : String) : ("page:" ++ s) ≠ "refresh_db" :=
  string_head_ne (by rw [data_page, List.head?_cons]; decide)

lemma pyStartsWith_append (pre s : String) : pyStartsWith (pre ++ s) pre = true := by
  rw [pyStartsWith, String.data_append, List.isPrefixOf_iff_prefix]
  exact List.prefix_append _ _

lemma play_not_page (s : String) : pyStartsWith ("play:" ++ s) "page:" = false := by
  rw [pyStartsWith, String.data_append]
  show (('p' == 'p')
      && (('a' == 'l') && List.isPrefixOf ['g', 'e', ':'] ('a' :: 'y' :: ':' :: s.data)))
    = false
  rw [show ('a' == 'l') = false from by decide]
  simp

lemma splitOnceTail_play (s : String) : splitOnceTail ("play:" ++ s) = s := rfl

lemma splitOnceTail_page (s : String) : splitOnceTail ("page:" ++ s) = s := rfl

lemma page_label_ne_prev (t u : String) :
    ("Page " ++ t ++ "/" ++ u) ≠ "⬅ Prev" :=
  string_head_ne (by rw [show ("Page " ++ t ++ "/" ++ u).data.head? = some 'P' from rfl]; decide)

lemma page_label_ne_next (t u : String) :
    ("Page " ++ t ++ "/" ++ u) ≠ "Next ➡" :=
  string_head_ne (by rw [show ("Page " ++ t ++ "/" ++ u).data.head? = some 'P' from rfl]; decide)

/-! ### Pagination arithmetic -/

lemma pySlice_natCast (xs : List MediaRecord) (a b : Nat) :
    pySlice xs (a : Int) (b : Int) = (xs.drop a).take (b - a) := by
  have ha : ¬((a : Int) < 0) := by omega
  have hb : ¬((b : Int) < 0) := by omega
  have hmin : ∀ m n : Nat, (min (m : Int) (n : Int)) = ((min m n : Nat) : Int) := by
    intro m n; push_cast; rfl
  simp only [pySlice, ha, hb, if_false]
  rw [hmin, hmin, Int.toNat_sub, Int.toNat_natCast]
  rcases le_or_lt a xs.length with h | h
  · rw [min_eq_left h]
    rcases le_or_lt b xs.length with hb2 | hb2
    · rw [min_eq_left hb2]
    · rw [min_eq_right (le_of_lt hb2)]
      rw [List.take_of_length_le (by rw [List.length_drop]),
        List.take_of_length_le (by rw [List.length_drop]; omega)]
  · rw [min_eq_right (le_of_lt h),
      List.drop_eq_nil_of_le (le_refl xs.length),
      List.drop_eq_nil_of_le (by omega : xs.length ≤ a)]
    simp

lemma ceil_pages {N P : Nat} (hN : 0 < N) (hP : 0 < P) :
    (N - 1) / P + 1 = (N + P - 1) / P := by
  have h1 : N + P - 1 = (N - 1) + P := by omega
  rw [h1, Nat.add_div_right _ hP]

lemma lt_ceil_iff {N P : Nat} (i : Nat) (hN : 0 < N) (hP : 0 < P) :
    i < (N + P - 1) / P ↔ i * P < N := by
  rw [← ceil_pages hN hP, Nat.lt_succ_iff, Nat.le_div_iff_mul_le hP]
  generalize i * P = q
  omega

lemma take_drop_ne_nil_iff (xs : List MediaRecord) {P : Nat} (i : Nat)
    (hP : 0 < P) :
    (xs.drop (i * P)).take P ≠ [] ↔ i * P < xs.length := by
  rw [← List.length_pos, List.length_take, List.length_drop]
  generalize i * P = q
  omega

/-! ### Claims -/

/-- C3: starting from a store in which every `sourceMessageId` occurs at most
once, an upsert leaves a store in which every `sourceMessageId` still occurs
at most once (a matching record is updated in place, otherwise exactly one
new record is appended). -/
theorem upsert_unique_msgId (entries : List MediaRecord) (t f : String)
    (k m : Nat) (h : ∀ m', msgIdCount m' entries ≤ 1) :
    msgIdCount m (add_or_update_entry t f k entries) ≤ 1 := by
  rcases eq_or_ne m k with rfl | hne
  · rw [msgIdCount_upsert_self]
    exact max_le (h m) (by omega)
  · rw [msgIdCount_upsert_ne t f k m hne]
    exact h m

/-- Witness for C3 at the empty store and `sourceMessageId` 5. -/
theorem upsert_unique_msgId_witness :
    (∀ m', msgIdCount m' [] ≤ 1)
    ∧ msgIdCount 5 (add_or_update_entry "a" "b" 5 []) ≤ 1 :=
  ⟨fun _ => by simp [msgIdCount],
   upsert_unique_msgId [] "a" "b" 5 5 (fun _ => by simp [msgIdCount])⟩

/-- C4: upsert is idempotent on the backing file: a second call with the same
title, fileRef and `sourceMessageId` leaves the store exactly as the first
call did. -/
theorem upsert_idempotent (db : StoreFile) (t f : String) (k : Nat) :
    add_or_update_entry_file t f k (add_or_update_entry_file t f k db)
      = add_or_update_entry_file t f k db := by
  unfold add_or_update_entry_file
  rw [show load_db (save_db (add_or_update_entry t f k (load_db db)))
      = add_or_update_entry t f k (load_db db) from rfl]
  rw [upsert_idem_list]

/-- C5: `load_db` is total and fails soft: a missing file, an unparsable
file, and a parse to a non-list value all yield the empty record list, while
a parsed list is returned unchanged. -/
theorem load_db_fails_soft :
    load_db .absent = [] ∧ load_db .unparsable = []
    ∧ (∀ v : StoreValue, (∀ xs, v ≠ .list xs) → load_db (.parsed v) = [])
    ∧ ∀ xs, load_db (.parsed (.list xs)) = xs := by
  refine ⟨rfl, rfl, ?_, fun _ => rfl⟩
  intro v hv
  cases v with
  | list xs => exact absurd rfl (hv xs)
  | other => rfl

/-- Witness for C5 at the non-list JSON value. -/
theorem load_db_fails_soft_witness : load_db (.parsed .other) = [] :=
  load_db_fails_soft.2.2.1 .other (fun _ h => StoreValue.noConfusion h)

/-- C7: a missing channel post, a post from a chat other than the configured
source channel, and a post with no recognized media attachment all leave the
backing file unchanged. -/
theorem channel_post_frame (db : StoreFile) (msg : Option ChannelPost)
    (h : msg = none ∨ ∃ m, msg = some m ∧
        (m.chat_id ≠ CHANNEL_ID
          ∨ (m.document = none ∧ m.video = none ∧ m.photo = []))) :
    channel_post_listener msg db = db := by
  rcases h with rfl | ⟨m, rfl, hm⟩
  · rfl
  · rcases hm with hchat | ⟨hdoc, hvid, hph⟩
    · simp [channel_post_listener, hchat]
    · rcases eq_or_ne m.chat_id CHANNEL_ID with hc | hc <;>
        simp [channel_post_listener, hc, hdoc, hvid, hph]

/-- Witness for C7 at a media-less post from an unrelated chat. -/
theorem channel_post_frame_witness :
    channel_post_listener (some ⟨0, 1, none, none, none, []⟩) .absent
      = .absent :=
  channel_post_frame .absent (some ⟨0, 1, none, none, none, []⟩)
    (Or.inr ⟨⟨0, 1, none, none, none, []⟩, rfl, Or.inl (by decide)⟩)

/-- C6: a `play:<id>` callback whose id matches no stored record answers with
the "not found" reply and leaves the store untouched. -/
theorem play_unknown_id (db : StoreFile) (chat : Int) (ok : Bool)
    (vid : String) (h : ∀ e ∈ load_db db, e.id ≠ vid) :
    callback_handler (some ("play:" ++ vid)) chat ok db
      = (db, [.answerQuery, .replyText "Video not found. Try Refresh."]) := by
  have hfind : (load_db db).find? (fun e => e.id == vid) = none :=
    List.find?_eq_none.mpr (fun e he => by simpa using h e he)
  simp only [callback_handler]
  rw [if_neg (not_or.mpr ⟨play_ne_empty vid, play_ne_noop vid⟩),
    if_neg (play_ne_refresh vid),
    if_neg (by simp [play_not_page vid] :
      ¬(pyStartsWith ("play:" ++ vid) "page:" = true)),
    if_pos (pyStartsWith_append "play:" vid)]
  simp only [splitOnceTail_play, hfind]

/-- Witness for C6 at the empty store and the id "missing-id". -/
theorem play_unknown_id_witness :
    (∀ e ∈ load_db .absent, e.id ≠ "missing-id")
    ∧ callback_handler (some ("play:" ++ "missing-id")) 1 true .absent
        = (.absent, [.answerQuery, .replyText "Video not found. Try Refresh."]) :=
  ⟨by simp [load_db],
   play_unknown_id .absent 1 true "missing-id" (by simp [load_db])⟩

/-- C9: a `page:<n>` callback never raises: an unparsable suffix renders
page 0, a parsable suffix `n` renders page `n`; the store is untouched
either way. -/
theorem page_parse_fallback (db : StoreFile) (chat : Int) (ok : Bool)
    (suffix : String) :
    (pyInt suffix = none →
      callback_handler (some ("page:" ++ suffix)) chat ok db
        = (db, [.answerQuery, .deleteMessage] ++ send_menu_page chat 0 db))
    ∧ ∀ n : Int, pyInt suffix = some n →
      callback_handler (some ("page:" ++ suffix)) chat ok db
        = (db, [.answerQuery, .deleteMessage]
            ++ send_menu_page chat n db) := by
  have hred : callback_handler (some ("page:" ++ suffix)) chat ok db
      = (db, [.answerQuery, .deleteMessage]
          ++ send_menu_page chat ((pyInt suffix).getD 0) db) := by
    simp only [callback_handler]
    rw [if_neg (not_or.mpr ⟨page_ne_empty suffix, page_ne_noop suffix⟩),
      if_neg (page_ne_refresh suffix),
      if_pos (pyStartsWith_append "page:" suffix)]
    simp only [splitOnceTail_page]
  constructor
  · intro h; rw [hred, h]; rfl
  · intro n h; rw [hred, h]; rfl

/-- Witness for C9 at the unparsable suffix "x". -/
theorem page_parse_fallback_witness :
    pyInt "x" = none
    ∧ callback_handler (some ("page:" ++ "x")) 1 true .absent
        = (.absent, [.answerQuery, .deleteMessage]
            ++ send_menu_page 1 0 .absent) :=
  ⟨by decide, (page_parse_fallback .absent 1 true "x").1 (by decide)⟩

/-- C8 counterexample: a post whose caption is "  hello  " (present, with
surrounding whitespace) is stored with title "hello", not with the caption
itself: the stored title is the stripped caption, so the claim as stated
fails at this input. -/
theorem caption_trim_cex :
    cexPost.chat_id = CHANNEL_ID ∧ cexPost.caption = some "  hello  "
    ∧ cexPost.document = some "doc-file"
    ∧ channel_post_listener (some cexPost) .absent
        = .parsed (.list [⟨"5", "hello", "doc-file", 5⟩])
    ∧ ("hello" : String) ≠ "  hello  " := by
  refine ⟨rfl, rfl, rfl, ?_, by decide⟩
  decide

/-- C8 (amended): for a media post from the source channel the stored title
is the caption stripped of surrounding whitespace when that is non-empty,
otherwise the synthesized placeholder containing the source message id; a
photo post stores the fileRef of the last (highest-resolution) variant. -/
theorem stored_title_and_fileref (m : ChannelPost) (db : StoreFile)
    (hchat : m.chat_id = CHANNEL_ID) :
    (∀ fid, m.document = some fid →
      channel_post_listener (some m) db
        = add_or_update_entry_file
            (if pyStrip (m.caption.getD "") = ""
             then "Document " ++ Nat.repr m.message_id
             else pyStrip (m.caption.getD "")) fid m.message_id db)
    ∧ (m.document = none → ∀ fid, m.video = some fid →
      channel_post_listener (some m) db
        = add_or_update_entry_file
            (if pyStrip (m.caption.getD "") = ""
             then "Video " ++ Nat.repr m.message_id
             else pyStrip (m.caption.getD "")) fid m.message_id db)
    ∧ (m.document = none → m.video = none →
        ∀ (l : List String) (fid : String), m.photo = l ++ [fid] →
      channel_post_listener (some m) db
        = add_or_update_entry_file
            (if pyStrip (m.caption.getD "") = ""
             then "Photo " ++ Nat.repr m.message_id
             else pyStrip (m.caption.getD "")) fid m.message_id db) := by
  refine ⟨?_, ?_, ?_⟩
  · intro fid hdoc
    simp [channel_post_listener, hchat, hdoc]
  · intro hdoc fid hvid
    simp [channel_post_listener, hchat, hdoc, hvid]
  · intro hdoc hvid l fid hph
    simp [channel_post_listener, hchat, hdoc, hvid, hph, List.getLast?_concat]

/-- Witness for C8 (amended) at a caption-less photo post with variants
`["p1", "p2"]`. -/
theorem stored_title_and_fileref_witness :
    photoPost.chat_id = CHANNEL_ID
    ∧ channel_post_listener (some photoPost) .absent
        = add_or_update_entry_file "Photo 7" "p2" 7 .absent := by
  refine ⟨rfl, ?_⟩
  have h := (stored_title_and_fileref photoPost .absent rfl).2.2 rfl rfl
    ["p1"] "p2" rfl
  rw [h]
  decide

/-- C10: upsert keeps every record's `id` equal to the decimal string of its
`msg_id` and keeps `msg_id`s unique; an in-place update rewrites only the
`title` and `file_id` fields of the first matching record; and the
`play:<id>` lookup on the upserted store finds exactly the upserted
record. -/
theorem upsert_id_lookup (entries : List MediaRecord) (t f : String)
    (k : Nat) (h : GoodStore entries) :
    GoodStore (add_or_update_entry t f k entries)
    ∧ (∀ (pre : List MediaRecord) (e : MediaRecord) (post : List MediaRecord),
        entries = pre ++ e :: post → e.msg_id = k →
        (∀ e' ∈ pre, e'.msg_id ≠ k) →
        add_or_update_entry t f k entries
          = pre ++ { e with title := t, file_id := f } :: post)
    ∧ (add_or_update_entry t f k entries).find? (fun e => e.id == Nat.repr k)
        = some ⟨Nat.repr k, t, f, k⟩ := by
  obtain ⟨hid, hcount⟩ := h
  refine ⟨⟨upsert_ids t f k entries hid, ?_⟩, ?_,
    find?_upsert t f k entries hid⟩
  · intro m
    rcases eq_or_ne m k with rfl | hne
    · rw [msgIdCount_upsert_self]
      exact max_le (hcount m) (by omega)
    · rw [msgIdCount_upsert_ne t f k m hne]
      exact hcount m
  · intro pre e post heq he hpre
    rw [heq]
    exact upsert_first_match t f k pre e post he hpre

/-- Witness for C10 at a one-record store whose record is then updated. -/
theorem upsert_id_lookup_witness :
    GoodStore [⟨"2", "x", "y", 2⟩]
    ∧ (add_or_update_entry "T" "F" 2 [⟨"2", "x", "y", 2⟩]).find?
        (fun e => e.id == Nat.repr 2) = some ⟨Nat.repr 2, "T", "F", 2⟩ := by
  have hg : GoodStore [⟨"2", "x", "y", 2⟩] :=
    ⟨by decide, fun _ => List.length_filter_le _ _⟩
  exact ⟨hg, (upsert_id_lookup [⟨"2", "x", "y", 2⟩] "T" "F" 2 hg).2.2⟩

/-- C1: for a non-empty store and positive page size, the menu for page `i`
lists exactly the records at indices `[i*P, min((i+1)*P, N))`; the page
indicator shown on every page displays `ceil(N/P)` (the code's
`(N-1)/P + 1`); and exactly the pages `i < ceil(N/P)` are non-empty. -/
theorem menu_pagination (entries : List MediaRecord) (P i : Nat)
    (hN : 0 < entries.length) (hP : 0 < P) :
    menu_keyboard P entries (i : Int)
        = (((entries.drop (i * P)).take P).map
            (fun e => [⟨e.title, "play:" ++ e.id⟩]))
          ++ [nav_row P entries.length (i : Int)
                ((i : Int) * (P : Int) + (P : Int))]
          ++ [[⟨"Refresh DB", "refresh_db"⟩]]
    ∧ (entries.length - 1) / P + 1 = (entries.length + P - 1) / P
    ∧ (InlineKeyboardButton.mk
          ("Page " ++ toString ((i : Int) + 1) ++ "/"
            ++ Nat.repr ((entries.length + P - 1) / P)) "noop")
        ∈ nav_row P entries.length (i : Int)
            ((i : Int) * (P : Int) + (P : Int))
    ∧ ((entries.drop (i * P)).take P ≠ []
        ↔ i < (entries.length + P - 1) / P) := by
  have hcast : ((i : Int) * (P : Int)) = ((i * P : Nat) : Int) := by
    push_cast; ring
  have hcast2 : ((i : Int) * (P : Int) + (P : Int))
      = ((i * P + P : Nat) : Int) := by
    push_cast; ring
  have hslice : pySlice entries ((i : Int) * (P : Int))
      ((i : Int) * (P : Int) + (P : Int)) = (entries.drop (i * P)).take P := by
    rw [hcast2, hcast, pySlice_natCast]
    have hsub : i * P + P - i * P = P := by
      generalize i * P = q; omega
    rw [hsub]
  refine ⟨?_, ceil_pages hN hP, ?_, ?_⟩
  · simp only [menu_keyboard]
    rw [hslice]
  · rw [← ceil_pages hN hP]
    simp [nav_row]
  · rw [take_drop_ne_nil_iff entries i hP]
    exact (lt_ceil_iff i hN hP).symm

/-- Witness for C1 at the spec's 13-record, page-size-6 example: pages 0, 1,
2 hold 6, 6 and 1 records. -/
theorem menu_pagination_witness :
    (0 < ex13.length ∧ 0 < 6
      ∧ (pySlice ex13 0 6).length = 6
      ∧ (pySlice ex13 6 12).length = 6
      ∧ (pySlice ex13 12 18).length = 1)
    ∧ ((ex13.drop (2 * 6)).take 6 ≠ []
        ↔ 2 < (ex13.length + 6 - 1) / 6) :=
  ⟨by decide, (menu_pagination ex13 6 2 (by decide) (by decide)).2.2.2⟩

/-- C2: for a non-empty store, the navigation row holds a Prev control iff
the page index is positive and a Next control iff the slice end index is
strictly below the number of records. -/
theorem nav_boundary_controls (entries : List MediaRecord) (P : Nat)
    (page : Int) (_hN : 0 < entries.length) :
    (rowHasButton
        (nav_row P entries.length page (page * (P : Int) + (P : Int)))
        "⬅ Prev" = true ↔ 0 < page)
    ∧ (rowHasButton
        (nav_row P entries.length page (page * (P : Int) + (P : Int)))
        "Next ➡" = true
      ↔ page * (P : Int) + (P : Int) < (entries.length : Int)) := by
  by_cases hp : 0 < page <;>
    by_cases hq : page * (P : Int) + (P : Int) < (entries.length : Int) <;>
      simp [nav_row, rowHasButton, hp, hq, page_label_ne_prev,
        page_label_ne_next,
        show ("Next ➡" : String) ≠ "⬅ Prev" from by decide,
        show ("⬅ Prev" : String) ≠ "Next ➡" from by decide]

/-- Witness for C2 at the 13-record example: page 1 shows both controls,
page 2 shows only Prev. -/
theorem nav_boundary_controls_witness :
    (0 < ex13.length
      ∧ rowHasButton (nav_row 6 13 1 12) "⬅ Prev" = true
      ∧ rowHasButton (nav_row 6 13 1 12) "Next ➡" = true
      ∧ rowHasButton (nav_row 6 13 2 18) "⬅ Prev" = true
      ∧ rowHasButton (nav_row 6 13 2 18) "Next ➡" = false)
    ∧ ((rowHasButton
          (nav_row 6 ex13.length 2
            ((2 : Int) * ((6 : Nat) : Int) + ((6 : Nat) : Int)))
          "⬅ Prev" = true ↔ 0 < (2 : Int))
      ∧ (rowHasButton
          (nav_row 6 ex13.length 2
            ((2 : Int) * ((6 : Nat) : Int) + ((6 : Nat) : Int)))
          "Next ➡" = true
        ↔ (2 : Int) * ((6 : Nat) : Int) + ((6 : Nat) : Int)
            < (ex13.length : Int))) :=
  ⟨by decide, nav_boundary_controls ex13 6 2 (by decide)⟩

end ShareChoreo
